import Mathlib

/-!
Verification development for the grepverse core (src/main.rs).

The scanning core of grepverse is embedded shallowly below:

* `create_matcher` models the function of the same name (main.rs 178-207);
  the external regex engine (`RegexBuilder::build` / `Regex::is_match`) is a
  parameter, and `literalRegexBuild` instantiates it for patterns that contain
  no regex metacharacters (for which `is_match` is substring search).
* `ctxStep` models the context-window block that appears verbatim in
  `search_file_buffered` (280-295), `search_chunk` (343-358) and
  `search_reader` (414-433).
* `search_file_buffered` models the buffered sequential scanner (261-303);
  its input is the sequence of results produced by `BufRead::lines`, each
  element either a decoded line or a read/decoding error that `line?`
  propagates.
* `search_chunk` models the per-chunk scanner (324-370) over a byte list,
  with the UTF-8 decoder (`std::str::from_utf8`) as a parameter;
  `decodeAscii` instantiates it on the ASCII fragment.
* `search_file_mmap` models the memory-mapped parallel scanner (306-321):
  `chunk_size = len / max(threads, 1)`, and `par_chunks` panics when
  `chunk_size = 0` (modelled as `none`); otherwise the per-chunk result
  vectors are concatenated in chunk-ordinal order.

Machine integers: all byte values and lengths fit far below any overflow
boundary on the concrete inputs used here, so they are modelled as `Nat`.
-/

/-- A scan output record, as returned by the scanners:
(line number, decoded line text, matched flag) — `(usize, String, bool)`
in main.rs. -/
abbrev LineRecord := Nat × String × Bool

/-- `isPre p l` is true iff `p` is a leading segment of `l`
(helper for substring containment). -/
def isPre : List Char → List Char → Bool
  | [], _ => true
  | _ :: _, [] => false
  | a :: as, b :: bs => a == b && isPre as bs

/-- `hasSub p l` is true iff `p` occurs contiguously inside `l`. -/
def hasSub (p : List Char) : List Char → Bool
  | [] => isPre p []
  | b :: tl => isPre p (b :: tl) || hasSub p tl

/-- Models Rust `line.contains(&pattern)`: `pattern` occurs as a substring of
`line` (true for the empty pattern, as in Rust). -/
def containsSubstr (line pat : String) : Bool :=
  hasSub pat.toList line.toList

/-- Models Rust `str::to_lowercase` on the ASCII fragment used in this file
(per-character lowercasing). -/
def strLower (s : String) : String :=
  String.mk (s.toList.map Char.toLower)

/-- Models `create_matcher` (main.rs 178-207). `rb` stands for the external
regex engine: `rb pattern case_insensitive` is the compiled `is_match`
predicate, or `none` when the pattern does not compile (the `map_err` path).
Faithful points of the source preserved here: the regex branch is taken when
`use_regex || word_regexp`, the `word_boundary` adjustment is commented out in
the source (lines 189-191) so `word_regexp` has no further effect, the
`fixed_strings` branch and the final branch have identical bodies, and every
branch XORs the raw result with `invert_match` (`!= invert_match`). -/
def create_matcher (rb : String → Bool → Option (String → Bool))
    (pattern : String)
    (use_regex ignore_case word_regexp fixed_strings invert_match : Bool) :
    Option (String → Bool) :=
  if use_regex || word_regexp then
    match rb pattern ignore_case with
    | none => none
    | some rm => some (fun line => rm line != invert_match)
  else if fixed_strings then
    let pat := if ignore_case then strLower pattern else pattern
    some (fun line =>
      let l := if ignore_case then strLower line else line
      containsSubstr l pat != invert_match)
  else
    let pat := if ignore_case then strLower pattern else pattern
    some (fun line =>
      let l := if ignore_case then strLower line else line
      containsSubstr l pat != invert_match)

/-- Models `RegexBuilder::build` + `Regex::is_match` for patterns containing
no regex metacharacters: such a pattern always compiles, and `is_match` is
substring search, case-folded when `case_insensitive` is set. Every concrete
pattern used in this file is metacharacter-free. -/
def literalRegexBuild (pattern : String) (case_insensitive : Bool) :
    Option (String → Bool) :=
  some (fun line =>
    if case_insensitive then containsSubstr (strLower line) (strLower pattern)
    else containsSubstr line pattern)

/-- One step of the context-window block that appears verbatim in
`search_file_buffered` (main.rs 280-295), `search_chunk` (343-358) and
`search_reader` (414-433): given the incoming record `r` (whose third
component is `is_match`), the `results` accumulated so far and the pending
`context_buffer`, it returns the updated `(results, context_buffer)`.
The three source steps in order: (1) skip entirely when the line does not
match and the buffer is empty; (2) push, and when the buffer exceeds
`context_lines * 2 + 1` remove the oldest record — flushing the remaining
buffer only when the removed record was a match; (3) when the incoming line
matches and the buffer length is exactly `context_lines + 1`, flush. -/
def ctxStep (context_lines : Nat) (r : LineRecord)
    (results ctxbuf : List LineRecord) :
    List LineRecord × List LineRecord :=
  let is_match := r.2.2
  if is_match || !ctxbuf.isEmpty then
    let cb := ctxbuf ++ [r]
    let (results1, cb1) :=
      if cb.length > context_lines * 2 + 1 then
        match cb with
        | [] => (results, ([] : List LineRecord))
        | old :: rest => if old.2.2 then (results ++ rest, []) else (results, rest)
      else (results, cb)
    if is_match && (cb1.length == context_lines + 1) then (results1 ++ cb1, [])
    else (results1, cb1)
  else (results, ctxbuf)

/-- Loop of `search_file_buffered` (main.rs 275-296) plus the final flush
(298-300). The line counter is incremented before `line?` is evaluated, so a
read/decoding error still consumes a line number — and aborts the whole scan
with `Err`, discarding the results accumulated so far. -/
def sfbGo (matcher : String → Bool) (context_lines : Nat) :
    List (Except Unit String) → Nat → List LineRecord → List LineRecord →
    Except Unit (List LineRecord)
  | [], _, results, ctxbuf => Except.ok (results ++ ctxbuf)
  | item :: rest, line_number, results, ctxbuf =>
    let ln := line_number + 1
    match item with
    | Except.error e => Except.error e
    | Except.ok line =>
      let st := ctxStep context_lines (ln, line, matcher line) results ctxbuf
      sfbGo matcher context_lines rest ln st.1 st.2

/-- Models `search_file_buffered` (main.rs 261-303). The input list is the
sequence of values yielded by `BufRead::lines` (each line already stripped of
its terminator; invalid UTF-8 or I/O failure yields `Except.error`). -/
def search_file_buffered (lines : List (Except Unit String))
    (matcher : String → Bool) (context_lines : Nat) :
    Except Unit (List LineRecord) :=
  sfbGo matcher context_lines lines 0 [] []

/-- Loop of `search_chunk` (main.rs 338-363) plus the final flush (365-367):
walks the chunk byte by byte, and at each newline byte (10) decodes the span
accumulated since the previous newline; an undecodable span is skipped
silently, but the line counter advances either way. Bytes after the last
newline (`cur` at the end of input) are never processed: the trailing
unterminated line is dropped. -/
def scGo (decode : List Nat → Option String) (matcher : String → Bool)
    (context_lines : Nat) :
    List Nat → List Nat → Nat → List LineRecord → List LineRecord →
    List LineRecord
  | [], _, _, results, ctxbuf => results ++ ctxbuf
  | b :: rest, cur, line_number, results, ctxbuf =>
    if b == 10 then
      match decode cur with
      | some line =>
        let st := ctxStep context_lines (line_number, line, matcher line) results ctxbuf
        scGo decode matcher context_lines rest [] (line_number + 1) st.1 st.2
      | none => scGo decode matcher context_lines rest [] (line_number + 1) results ctxbuf
    else scGo decode matcher context_lines rest (cur ++ [b]) line_number results ctxbuf

/-- Models `search_chunk` (main.rs 324-370). Note that `line_number` starts
at 1 in every chunk, whichever chunk of the file this is. -/
def search_chunk (decode : List Nat → Option String) (chunk : List Nat)
    (matcher : String → Bool) (context_lines : Nat) : List LineRecord :=
  scGo decode matcher context_lines chunk [] 1 [] []

/-- Fuel-indexed splitting into consecutive sub-lists of length `n`, the last
possibly shorter. Meaningful for `n ≥ 1`; fuel equal to the list length always
suffices because every step consumes at least one element. -/
def chunksOfAux (n : Nat) : Nat → List Nat → List (List Nat)
  | 0, _ => []
  | _ + 1, [] => []
  | fuel + 1, a :: l => (a :: l).take n :: chunksOfAux n fuel ((a :: l).drop n)

/-- Models `slice::par_chunks n` (order-preserving, as rayon's indexed
`collect` keeps chunk order): consecutive chunks of `n` bytes, last possibly
shorter. Requires `n ≥ 1` to be meaningful — `par_chunks` panics on 0, which
`search_file_mmap` models separately. -/
def parChunks (n : Nat) (l : List Nat) : List (List Nat) :=
  chunksOfAux n l.length l

/-- Models `search_file_mmap` (main.rs 306-321):
`chunk_size = mmap.len() / rayon::current_num_threads().max(1)`; rayon's
`par_chunks` panics when `chunk_size` is 0, modelled as `none`; otherwise
every chunk is processed by `search_chunk` and the per-chunk result vectors
are flattened in chunk-ordinal order. -/
def search_file_mmap (decode : List Nat → Option String) (mmap : List Nat)
    (matcher : String → Bool) (context_lines num_threads : Nat) :
    Option (List LineRecord) :=
  let chunk_size := mmap.length / (max num_threads 1)
  if chunk_size = 0 then none
  else some (((parChunks chunk_size mmap).map
    (fun chunk => search_chunk decode chunk matcher context_lines)).flatten)

/-- Models `std::str::from_utf8` on the fragment the concrete inputs of this
file live in: a span of ASCII bytes (each < 128) decodes to the corresponding
string; a span containing the byte 255 (0xFF — invalid at any position in
UTF-8) fails to decode. -/
def decodeAscii (bytes : List Nat) : Option String :=
  if bytes.all (fun b => b < 128) then some (String.mk (bytes.map Char.ofNat))
  else none

/-- Byte list of an ASCII string (for writing concrete mapped buffers). -/
def strBytes (s : String) : List Nat :=
  s.toList.map (fun c => c.toNat)

/-- Models `main`'s counting mode (main.rs 139-156): the reported total is
`file_matches.len()` — the length of the whole result vector. -/
def count_reported (results : List LineRecord) : Nat := results.length

/-- Spec-side definition (§6): a counting mode is to tally matched records
only — the number of records whose matched flag is true. -/
def matched_count (results : List LineRecord) : Nat :=
  (results.filter (fun r => r.2.2)).length

/-- Spec-side definition (§4.1): a word character (letter, digit or
underscore), for token boundaries. -/
def isWordChar (c : Char) : Bool := c.isAlphanum || c == '_'

/-- Whether an optional character is a word character (absent = not). -/
def wordOpt : Option Char → Bool
  | none => false
  | some c => isWordChar c

/-- All ways to split a list into a front part and a suffix. -/
def splitsList : List Char → List (List Char × List Char)
  | [] => [([], [])]
  | c :: tl => ([], c :: tl) :: (splitsList tl).map (fun pr => (c :: pr.1, pr.2))

/-- Spec-side definition (§4.1): the pattern occurs in the line at token
boundaries (word-char/non-word-char transitions on both sides) — the property
whole-word mode must constrain matches to. -/
def wholeWordOccur (pat line : String) : Bool :=
  let p := pat.toList
  !p.isEmpty &&
    (splitsList line.toList).any (fun pr =>
      isPre p pr.2 &&
      (wordOpt pr.1.getLast? != wordOpt p.head?) &&
      (wordOpt p.getLast? != wordOpt ((pr.2.drop p.length).head?)))

/-! Concrete strings and matchers used by the concrete evaluations. -/

def sA : String := "a"
def sB : String := "b"
def sC : String := "c"
def sD : String := "d"
def sAbc : String := "abc"
def sAaa : String := "aaa"
def sBbb : String := "bbb"
def sMAT : String := "MAT"
def sMATCH : String := "MATCH"
def sCat : String := "cat"
def sConcatenate : String := "concatenate"
def sAbcMatFile : String := "abc\nMAT\n"
def sAbcLine : String := "abc\n"
def sMatLine : String := "MAT\n"
def sAaaBbbFile : String := "aaa\nbbb\n"
def sAaaLine : String := "aaa\n"
def sBbbLine : String := "bbb\n"

/-- Predicate for the literal pattern MATCH (the value `create_matcher`
produces for it with all flags off). -/
def matchMATCH (line : String) : Bool := containsSubstr line sMATCH

/-- Predicate for the literal pattern MAT. -/
def matchMAT (line : String) : Bool := containsSubstr line sMAT

/-- Predicate matching every line (as the empty literal pattern does). -/
def matchAll (_ : String) : Bool := true

/-- C1: on the 8-byte file abc\nMAT\n with pattern MAT, contextSize 0 and
2 worker threads, the chunk boundaries fall exactly on line boundaries
(chunks abc\n and MAT\n, third conjunct), yet the Parallel Chunk Scanner
reports the match at line 1 while the Sequential Scanner reports it at
line 2: the two scanners do not produce identical output sequences even with
line-aligned chunks, because `search_chunk` restarts line numbering at 1 in
every chunk. -/
theorem c1_seq_par_disagree :
    search_file_mmap decodeAscii (strBytes sAbcMatFile) matchMAT 0 2
      = some [(1, sMAT, true)]
    ∧ search_file_buffered [Except.ok sAbc, Except.ok sMAT] matchMAT 0
      = Except.ok [(2, sMAT, true)]
    ∧ parChunks ((strBytes sAbcMatFile).length / max 2 1) (strBytes sAbcMatFile)
      = [strBytes sAbcLine, strBytes sMatLine] := by
  refine ⟨by decide, rfl, by decide⟩

/-- C2: on the file aaa\nbbb\n with a match-everything predicate, contextSize
0 and 2 worker threads (line-aligned chunks aaa\n and bbb\n), the Parallel
Chunk Scanner emits the records (1, aaa) and (1, bbb): the line numbers
collide and do not increase across the chunk boundary, because each chunk is
numbered from 1. -/
theorem c2_chunk_numbering_collides :
    search_file_mmap decodeAscii (strBytes sAaaBbbFile) matchAll 0 2
      = some [(1, sAaa, true), (1, sBbb, true)]
    ∧ parChunks ((strBytes sAaaBbbFile).length / max 2 1) (strBytes sAaaBbbFile)
      = [strBytes sAaaLine, strBytes sBbbLine] := by
  refine ⟨by decide, by decide⟩

/-- C3: on the spec's end-to-end example — lines a, MATCH, b, c, d, literal
pattern MATCH, contextSize 1 — the scan does not produce the block
[(1,a,false),(2,MATCH,true),(3,b,false)]: the code emits
[(3,b,false),(4,c,false),(5,d,false)] instead. The leading context line a is
never buffered (non-matching lines arriving on an empty buffer are
discarded), and the matching line itself is evicted from the full buffer and
excluded from the flushed block. -/
theorem c3_example_output_mismatch :
    search_file_buffered
        [Except.ok sA, Except.ok sMATCH, Except.ok sB, Except.ok sC, Except.ok sD]
        matchMATCH 1
      = Except.ok [(3, sB, false), (4, sC, false), (5, sD, false)]
    ∧ ([(3, sB, false), (4, sC, false), (5, sD, false)] : List LineRecord)
      ≠ [(1, sA, false), (2, sMATCH, true), (3, sB, false)] := by
  refine ⟨rfl, by decide⟩

/-- C6: in counting mode `main` reports `file_matches.len()` — the length of
the whole result vector. On the file with lines MATCH, b, pattern MATCH and
contextSize 1 the scan returns the two records (1,MATCH,true) and (2,b,false);
the reported count is 2, while the number of matched records (what the spec
says a counting mode tallies) is 1: context lines are counted as well. -/
theorem c6_count_includes_context :
    search_file_buffered [Except.ok sMATCH, Except.ok sB] matchMATCH 1
      = Except.ok [(1, sMATCH, true), (2, sB, false)]
    ∧ count_reported [(1, sMATCH, true), (2, sB, false)] = 2
    ∧ matched_count [(1, sMATCH, true), (2, sB, false)] = 1 := by
  refine ⟨rfl, by decide, by decide⟩

/-- C7: on a buffer holding the single unterminated line MATCH (no trailing
newline), `search_chunk` emits nothing — the trailing partial line is dropped,
never fed to the matcher — while the buffered scanner on the same content does
emit it as the final record (1, MATCH, true), as the spec requires. -/
theorem c7_trailing_line_dropped_in_chunk :
    search_chunk decodeAscii (strBytes sMATCH) matchMATCH 1 = []
    ∧ search_file_buffered [Except.ok sMATCH] matchMATCH 1
      = Except.ok [(1, sMATCH, true)] := by
  refine ⟨by decide, rfl⟩

/-- C10: with contextSize 1 on the lines MATCH, b, c, d, the matching line
(1, MATCH, true) is the record evicted when the context buffer exceeds
2*contextSize+1; the flush triggered by that eviction emits only the remaining
buffer [(2,b),(3,c),(4,d)], so the line for which the predicate returned true
never appears in the output — every emitted record has matched = false. -/
theorem c10_evicted_match_never_output :
    search_file_buffered
        [Except.ok sMATCH, Except.ok sB, Except.ok sC, Except.ok sD] matchMATCH 1
      = Except.ok [(2, sB, false), (3, sC, false), (4, sD, false)]
    ∧ matchMATCH sMATCH = true
    ∧ List.all [(2, sB, false), (3, sC, false), (4, sD, false)]
        (fun r : LineRecord => !r.2.2) = true := by
  refine ⟨rfl, by decide, by decide⟩

/-- C4: with whole-word mode on (pattern cat, word_regexp = true, every other
flag off), the predicate built by `create_matcher` returns true on the line
concatenate, although cat does not occur there at token boundaries
(`wholeWordOccur` is the spec's boundary condition and is false): the
word-boundary wrapping is commented out in the source, so the whole-word flag
is silently ignored. -/
theorem c4_word_flag_ignored :
    (create_matcher literalRegexBuild sCat false false true false false).map
        (fun m => m sConcatenate) = some true
    ∧ wholeWordOccur sCat sConcatenate = false := by
  refine ⟨rfl, by decide⟩

/-- C5 counterexample: the Sequential Scanner does not silently drop a line
span that fails decoding — `line?` propagates the failure, so the scan of
a good line followed by an undecodable one returns an error, not Ok with the
remaining lines. -/
theorem c5_buffered_decode_error_propagates :
    search_file_buffered [Except.ok sA, Except.error ()] matchAll 0
      = Except.error () := rfl

/-- Helper for c5: running the chunk scanner with a decoder that fails on
every span leaves the result and context buffers empty throughout. -/
theorem scGo_decode_none (matcher : String → Bool) (context_lines : Nat)
    (bytes : List Nat) :
    ∀ (cur : List Nat) (ln : Nat),
      scGo (fun _ => none) matcher context_lines bytes cur ln [] [] = [] := by
  induction bytes with
  | nil => intro cur ln; rfl
  | cons b rest ih =>
    intro cur ln
    by_cases h : (b == 10) = true
    · simp only [scGo, h, if_true]
      exact ih [] (ln + 1)
    · simp only [scGo, h]
      rw [if_neg]
      · exact ih (cur ++ [b]) ln
      · simp [h]

/-- C5 (amended): decoding failures are silently excluded only in the
Parallel Chunk Scanner. First conjunct: for every chunk, matcher and
contextSize, if every span fails to decode then `search_chunk` returns the
empty record list (no error: its type has no error case). Second conjunct: a
chunk whose middle line is the undecodable byte 255 yields exactly the
records of the two decodable lines, the failed line dropped silently while
the line counter still advanced past it (records numbered 1 and 3). -/
theorem c5_chunk_decode_failures_silently_dropped :
    (∀ (chunk : List Nat) (matcher : String → Bool) (context_lines : Nat),
        search_chunk (fun _ => none) chunk matcher context_lines = [])
    ∧ search_chunk decodeAscii [97, 10, 255, 10, 98, 10] matchAll 0
        = [(1, sA, true), (3, sB, true)] := by
  refine ⟨?_, by decide⟩
  intro chunk matcher context_lines
  exact scGo_decode_none matcher context_lines chunk [] 1

/-- C8: for every regex engine, pattern, flag combination and line, the
predicate `create_matcher` builds with invert_match = true is exactly the
logical NOT, on that line, of the predicate built from the same configuration
with invert_match = false (and one compiles iff the other does). -/
theorem c8_invert_complement (rb : String → Bool → Option (String → Bool))
    (p : String) (u i w f : Bool) (line : String) :
    (create_matcher rb p u i w f true).map (fun m => m line)
      = (create_matcher rb p u i w f false).map (fun m => ! m line) := by
  unfold create_matcher
  by_cases h : (u || w) = true
  · simp only [h, if_true]
    cases hrb : rb p i with
    | none => rfl
    | some rm =>
      cases hm : rm line <;> simp [hm]
  · simp only [h, if_false, Bool.false_eq_true]
    by_cases hf : f = true
    · simp only [hf, if_true, Option.map_some]
      cases hc : containsSubstr (if i = true then strLower line else line)
          (if i = true then strLower p else p) <;> simp [hc]
    · simp only [hf, if_false, Option.map_some, Bool.false_eq_true]
      cases hc : containsSubstr (if i = true then strLower line else line)
          (if i = true then strLower p else p) <;> simp [hc]

/-- C8 witness: a concrete instantiation of the complement theorem at the
regex engine model, pattern cat, use_regex on, line concatenate. -/
theorem c8_invert_complement_witness :
    (create_matcher literalRegexBuild sCat true false false false true).map
        (fun m => m sConcatenate)
      = (create_matcher literalRegexBuild sCat true false false false false).map
        (fun m => ! m sConcatenate) :=
  c8_invert_complement literalRegexBuild sCat true false false false sConcatenate

/-- C9: for every non-empty mapped buffer shorter than the worker-thread
count, `search_file_mmap` computes `chunk_size = len / threads = 0`, and
`par_chunks(0)` panics (modelled as `none`): the scan neither returns records
nor an error value. -/
theorem c9_small_mmap_panics (decode : List Nat → Option String)
    (mmap : List Nat) (matcher : String → Bool)
    (context_lines num_threads : Nat)
    (h1 : mmap ≠ []) (h2 : mmap.length < num_threads) :
    search_file_mmap decode mmap matcher context_lines num_threads = none := by
  have hpos : 0 < num_threads := Nat.lt_of_le_of_lt (Nat.zero_le _) h2
  have hmax : max num_threads 1 = num_threads := Nat.max_eq_left hpos
  have hdiv : mmap.length / num_threads = 0 := Nat.div_eq_of_lt h2
  unfold search_file_mmap
  simp [hmax, hdiv]

/-- C9 witness: a 1-byte mapped buffer with 2 worker threads hits the
zero-chunk-size panic. -/
theorem c9_small_mmap_panics_witness :
    search_file_mmap decodeAscii [97] matchAll 0 2 = none :=
  c9_small_mmap_panics decodeAscii [97] matchAll 0 2 (by decide) (by decide)
